import Mathlib

/-!
Shallow embedding of the Tailor smart-context plugin, whose full source
(`example-vault/plugins/smart_context/main.py` and `embedding_cache.py`)
is given in `docs/plans/2026-03-01-smart-context-implementation-plan.md`.

Modelling conventions.  Python messages and topics are JSON dictionaries;
we model exactly the fields the plugin reads, with the defaults the
plugin supplies via `dict.get`.  Awaited provider and store calls are
modelled as `Except`-valued inputs of the pipeline step, where `.error`
means the call raised an exception.  Float values become rationals, and
the cosine similarity function is an explicit parameter of the filter,
so that every theorem quantifying over `sim` holds in particular for the
concrete floating-point `_cosine_similarity` of the source.
-/

namespace SmartContext

/-- A chat message as read by the plugin: `m.get("id", "")`,
`m.get("role", "user")`, `str(m.get("content", ""))`. -/
structure Message where
  id : String
  role : String
  content : String
deriving DecidableEq, Repr

/-- A topic dictionary as consumed downstream: `t.get("label")`,
`t.get("count")`, truthiness of `t.get("sticky")`, and
`t.get("message_ids", [])`.  A plain topic parsed from the extraction
output has `sticky = false` and `message_ids = []` (missing keys). -/
structure Topic where
  label : String
  count : Nat
  sticky : Bool
  message_ids : List String
deriving DecidableEq, Repr

/-- In-memory plugin state: `similarity_threshold`, `embedding_search`,
`active_topics`, `current_chat_id` from `Plugin.__init__`.  The Python
`active_topics` is a set of strings; we model it as a list used only
through membership and emptiness. -/
structure PluginState where
  similarity_threshold : ℚ
  embedding_search : Bool
  active_topics : List String
  current_chat_id : String
deriving DecidableEq, Repr

/-- The mutable pipeline context seen by `_on_pipeline_context`:
`ctx.history` and `ctx.metadata.get("chat_id")`.  A missing chat id and
an empty-string chat id are both falsy in the source, so both are
modelled as `chatId = ""`. -/
structure PipelineCtx where
  history : List Message
  chatId : String
deriving DecidableEq, Repr

/-- Sticky id set resolved from the persisted topic list, as in
`_on_pipeline_context`: the union over sticky-flagged topics of their
`message_ids`.  Python builds a set; only membership is ever observed,
so a concatenation is an equivalent model. -/
def stickyIdsOf (topics : List Topic) : List String :=
  (topics.filter (·.sticky)).flatMap (·.message_ids)

/-- The source computes `max(_cosine_similarity(emb, t) for t in topic_embeddings)`.
Python `max` over the nonempty list of per-topic similarities; for the
empty list (unreachable in the pipeline because `active_topics` is
checked nonempty before embedding) we return the junk value `0`. -/
def maxSim (sim : List ℚ → List ℚ → ℚ) (e : List ℚ) (tEmbs : List (List ℚ)) : ℚ :=
  match tEmbs.map (fun t => sim e t) with
  | [] => 0
  | x :: xs => xs.foldl max x

/-- Whether a message clears the similarity bar in `_compute_relevant_ids`:
a message with no embedding is skipped (`continue`), otherwise it is
included when `max_sim >= self.similarity_threshold`. -/
def reachesThreshold (sim : List ℚ → List ℚ → ℚ) (tEmbs : List (List ℚ))
    (msgEmb : String → Option (List ℚ)) (threshold : ℚ) (msgId : String) : Bool :=
  match msgEmb msgId with
  | none => false
  | some e => decide (threshold ≤ maxSim sim e tEmbs)

/-- Model of `_compute_relevant_ids`.  For each message in order: a
sticky id is appended without being scored (`continue`); otherwise the
id is appended exactly when its embedding clears the threshold.  The
map `msgEmb` stands for the cache-or-freshly-embedded vector each
message ends up with (`cached` in the source). -/
def computeRelevantIds (sim : List ℚ → List ℚ → ℚ) (tEmbs : List (List ℚ))
    (msgEmb : String → Option (List ℚ)) (threshold : ℚ)
    (stickyIds : List String) (messages : List Message) : List String :=
  messages.filterMap (fun m =>
    if m.id ∈ stickyIds then some m.id
    else if reachesThreshold sim tEmbs msgEmb threshold m.id then some m.id
    else none)

/-- The try-block body of `_on_pipeline_context` after the topic list has
been loaded and all embeddings obtained: compute the included ids, fall
back to the full history when no non-sticky id was included, otherwise
keep exactly the history messages whose id was included. -/
def onPipelineContextBody (sim : List ℚ → List ℚ → ℚ) (tEmbs : List (List ℚ))
    (msgEmb : String → Option (List ℚ)) (threshold : ℚ)
    (topics : List Topic) (history : List Message) : List Message :=
  let stickyIds := stickyIdsOf topics
  let included := computeRelevantIds sim tEmbs msgEmb threshold stickyIds history
  let nonStickyIncluded := included.filter (fun i => decide (i ∉ stickyIds))
  if nonStickyIncluded.isEmpty then history
  else history.filter (fun m => decide (m.id ∈ included))

/-- Model of `_on_pipeline_context`.  Guards: no active topics or mode
disabled, missing chat id, or empty history all leave the history
untouched.  `loadResult` models the awaited `memory.load_chat` call
returning the persisted topic list (`data.get("topics", [])`), and
`embedResult` models the provider embedding calls issued inside
`_compute_relevant_ids` (topic embeddings plus the per-message vector
map); `.error` on either means the awaited call raised, which the
`except` handler turns into a logged no-op on the history. -/
def onPipelineContext (sim : List ℚ → List ℚ → ℚ) (st : PluginState) (ctx : PipelineCtx)
    (loadResult : Except Unit (List Topic))
    (embedResult : Except Unit (List (List ℚ) × (String → Option (List ℚ)))) :
    List Message :=
  if st.active_topics = [] ∨ st.embedding_search = false then ctx.history
  else if ctx.chatId = "" ∨ ctx.history = [] then ctx.history
  else
    match loadResult, embedResult with
    | .ok topics, .ok (tEmbs, msgEmb) =>
        onPipelineContextBody sim tEmbs msgEmb st.similarity_threshold topics ctx.history
    | _, _ => ctx.history

end SmartContext


namespace SmartContext

/-- Helper: a message of the transcript whose id is sticky always
contributes its id to `_compute_relevant_ids`. -/
theorem sticky_mem_computeRelevantIds (sim : List ℚ → List ℚ → ℚ)
    (tEmbs : List (List ℚ)) (msgEmb : String → Option (List ℚ)) (threshold : ℚ)
    (stickyIds : List String) (messages : List Message) (m : Message)
    (hm : m ∈ messages) (hs : m.id ∈ stickyIds) :
    m.id ∈ computeRelevantIds sim tEmbs msgEmb threshold stickyIds messages := by
  refine List.mem_filterMap.mpr ⟨m, hm, ?_⟩
  simp [hs]

/-- Helper: when no non-sticky message clears the threshold, every id
returned by `_compute_relevant_ids` is a sticky id. -/
theorem computeRelevantIds_subset_sticky (sim : List ℚ → List ℚ → ℚ)
    (tEmbs : List (List ℚ)) (msgEmb : String → Option (List ℚ)) (threshold : ℚ)
    (stickyIds : List String) (messages : List Message)
    (h : ∀ m ∈ messages, m.id ∉ stickyIds →
      reachesThreshold sim tEmbs msgEmb threshold m.id = false) :
    ∀ i ∈ computeRelevantIds sim tEmbs msgEmb threshold stickyIds messages,
      i ∈ stickyIds := by
  intro i hi
  obtain ⟨m, hm, hf⟩ := List.mem_filterMap.mp hi
  by_cases hms : m.id ∈ stickyIds
  · simp only [if_pos hms, Option.some.injEq] at hf
    exact hf ▸ hms
  · simp only [if_neg hms, h m hm hms] at hf
    simp at hf

/-- C1.  Fallback rule of the Context Filter: for every input history,
active topic set and similarity threshold, if no non-sticky message of
the history clears the threshold, the filtering result is discarded and
the output history equals the full original input history. -/
theorem fallback_returns_full_history (sim : List ℚ → List ℚ → ℚ)
    (st : PluginState) (ctx : PipelineCtx) (topics : List Topic)
    (tEmbs : List (List ℚ)) (msgEmb : String → Option (List ℚ))
    (h : ∀ m ∈ ctx.history, m.id ∉ stickyIdsOf topics →
      reachesThreshold sim tEmbs msgEmb st.similarity_threshold m.id = false) :
    onPipelineContext sim st ctx (.ok topics) (.ok (tEmbs, msgEmb)) = ctx.history := by
  unfold onPipelineContext
  split_ifs with h1 h2
  · rfl
  · rfl
  · show onPipelineContextBody sim tEmbs msgEmb st.similarity_threshold topics ctx.history
      = ctx.history
    unfold onPipelineContextBody
    dsimp only
    have hsub := computeRelevantIds_subset_sticky sim tEmbs msgEmb
      st.similarity_threshold (stickyIdsOf topics) ctx.history h
    have hnil : (computeRelevantIds sim tEmbs msgEmb st.similarity_threshold
        (stickyIdsOf topics) ctx.history).filter
        (fun i => decide (i ∉ stickyIdsOf topics)) = [] := by
      refine List.filter_eq_nil_iff.mpr ?_
      intro a ha
      simpa using hsub a ha
    rw [hnil]
    rfl

/-- C1 witness: a concrete history, topic set and threshold where no
non-sticky message clears the bar, evaluated to the full history. -/
theorem fallback_returns_full_history_witness :
    (∀ m ∈ ([⟨"m1", "user", "hello"⟩] : List Message),
      m.id ∉ stickyIdsOf [⟨"Instructions & Preferences", 1, true, ["s1"]⟩] →
      reachesThreshold (fun _ _ => 0) [[1]] (fun _ => some [1])
        (⟨2, true, ["T"], ""⟩ : PluginState).similarity_threshold m.id = false) ∧
    onPipelineContext (fun _ _ => 0) ⟨2, true, ["T"], ""⟩
      ⟨[⟨"m1", "user", "hello"⟩], "c1"⟩
      (.ok [⟨"Instructions & Preferences", 1, true, ["s1"]⟩])
      (.ok ([[1]], fun _ => some [1])) = [⟨"m1", "user", "hello"⟩] :=
  ⟨by decide,
    fallback_returns_full_history (fun _ _ => 0) ⟨2, true, ["T"], ""⟩
      ⟨[⟨"m1", "user", "hello"⟩], "c1"⟩ [⟨"Instructions & Preferences", 1, true, ["s1"]⟩]
      [[1]] (fun _ => some [1]) (by decide)⟩

/-- C2.  No-op gate: if similarity mode is disabled or the active topic
set is empty, the filter leaves the history exactly unchanged (the
guard returns before any scoring; in particular no message is added,
removed or changed, and no sticky de-duplication is even needed since
nothing is injected). -/
theorem noop_gate_identity (sim : List ℚ → List ℚ → ℚ) (st : PluginState)
    (ctx : PipelineCtx) (loadResult : Except Unit (List Topic))
    (embedResult : Except Unit (List (List ℚ) × (String → Option (List ℚ))))
    (h : st.active_topics = [] ∨ st.embedding_search = false) :
    onPipelineContext sim st ctx loadResult embedResult = ctx.history := by
  unfold onPipelineContext
  rw [if_pos h]

/-- C2 witness: with an empty active topic set the concrete history
passes through unchanged. -/
theorem noop_gate_identity_witness :
    (⟨2/5, true, [], ""⟩ : PluginState).active_topics = [] ∧
    onPipelineContext (fun _ _ => 1) ⟨2/5, true, [], ""⟩
      ⟨[⟨"m1", "user", "hello"⟩, ⟨"m2", "user", "bye"⟩], "c1"⟩
      (.ok []) (.ok ([[1]], fun _ => some [1]))
      = [⟨"m1", "user", "hello"⟩, ⟨"m2", "user", "bye"⟩] :=
  ⟨rfl,
    noop_gate_identity (fun _ _ => 1) ⟨2/5, true, [], ""⟩
      ⟨[⟨"m1", "user", "hello"⟩, ⟨"m2", "user", "bye"⟩], "c1"⟩
      (.ok []) (.ok ([[1]], fun _ => some [1])) (Or.inl rfl)⟩

/-- C3.  Sticky inclusion: every message of the input history whose id
belongs to the sticky id set of the persisted Topic Set is present in
the filter output, for every similarity function, embedding assignment
and threshold — sticky messages are included without ever being
scored. -/
theorem sticky_always_included (sim : List ℚ → List ℚ → ℚ) (st : PluginState)
    (ctx : PipelineCtx) (topics : List Topic) (tEmbs : List (List ℚ))
    (msgEmb : String → Option (List ℚ)) (m : Message)
    (hm : m ∈ ctx.history) (hs : m.id ∈ stickyIdsOf topics) :
    m ∈ onPipelineContext sim st ctx (.ok topics) (.ok (tEmbs, msgEmb)) := by
  unfold onPipelineContext
  split_ifs with h1 h2
  · exact hm
  · exact hm
  · show m ∈ onPipelineContextBody sim tEmbs msgEmb st.similarity_threshold topics ctx.history
    unfold onPipelineContextBody
    dsimp only
    split_ifs with h3
    · exact hm
    · refine List.mem_filter.mpr ⟨hm, ?_⟩
      simpa using sticky_mem_computeRelevantIds sim tEmbs msgEmb
        st.similarity_threshold (stickyIdsOf topics) ctx.history m hm hs

/-- C3 witness: a concrete sticky message with a similarity score far
below the threshold is still in the output. -/
theorem sticky_always_included_witness :
    (⟨"s1", "user", "be concise"⟩ : Message) ∈
      ([⟨"s1", "user", "be concise"⟩, ⟨"m1", "user", "python async"⟩] : List Message) ∧
    "s1" ∈ stickyIdsOf [⟨"Python Async", 1, false, []⟩,
      ⟨"Instructions & Preferences", 1, true, ["s1"]⟩] ∧
    (⟨"s1", "user", "be concise"⟩ : Message) ∈
      onPipelineContext (fun _ _ => 1) ⟨1/2, true, ["Python Async"], ""⟩
        ⟨[⟨"s1", "user", "be concise"⟩, ⟨"m1", "user", "python async"⟩], "c1"⟩
        (.ok [⟨"Python Async", 1, false, []⟩,
          ⟨"Instructions & Preferences", 1, true, ["s1"]⟩])
        (.ok ([[1]], fun _ => some [1])) :=
  ⟨by decide, by decide,
    sticky_always_included (fun _ _ => 1) ⟨1/2, true, ["Python Async"], ""⟩
      ⟨[⟨"s1", "user", "be concise"⟩, ⟨"m1", "user", "python async"⟩], "c1"⟩
      [⟨"Python Async", 1, false, []⟩, ⟨"Instructions & Preferences", 1, true, ["s1"]⟩]
      [[1]] (fun _ => some [1]) ⟨"s1", "user", "be concise"⟩ (by decide) (by decide)⟩

/-- C4.  Shape of the filter output: on every path (no-op gate, error
degradation, fallback or similarity filtering) the output history is a
sublist of the input history — chronological order is preserved, no
message is duplicated beyond the input, and no message absent from the
input (in particular a sticky id not present in the history) is ever
injected. -/
theorem filter_output_sublist_of_input (sim : List ℚ → List ℚ → ℚ)
    (st : PluginState) (ctx : PipelineCtx) (loadResult : Except Unit (List Topic))
    (embedResult : Except Unit (List (List ℚ) × (String → Option (List ℚ)))) :
    (onPipelineContext sim st ctx loadResult embedResult).Sublist ctx.history := by
  unfold onPipelineContext
  split_ifs with h1 h2
  · exact List.Sublist.refl _
  · exact List.Sublist.refl _
  · rcases loadResult with e | topics
    · exact List.Sublist.refl _
    · rcases embedResult with e | ⟨tEmbs, msgEmb⟩
      · exact List.Sublist.refl _
      · show (onPipelineContextBody sim tEmbs msgEmb st.similarity_threshold topics
          ctx.history).Sublist ctx.history
        unfold onPipelineContextBody
        dsimp only
        split_ifs with h3
        · exact List.Sublist.refl _
        · exact List.filter_sublist _

/-- C8.  Error degradation: if the store load or any embedding provider
call raises during the filter run, the run returns normally and the
history passed downstream is the full unmodified input history. -/
theorem filter_error_degrades_to_full_history (sim : List ℚ → List ℚ → ℚ)
    (st : PluginState) (ctx : PipelineCtx) (loadResult : Except Unit (List Topic))
    (embedResult : Except Unit (List (List ℚ) × (String → Option (List ℚ))))
    (h : loadResult = .error () ∨ embedResult = .error ()) :
    onPipelineContext sim st ctx loadResult embedResult = ctx.history := by
  unfold onPipelineContext
  split_ifs with h1 h2
  · rfl
  · rfl
  · rcases h with h | h <;> subst h
    · rfl
    · rcases loadResult with e | topics <;> rfl

/-- C8 witness: a raised store load leaves a concrete history
untouched. -/
theorem filter_error_degrades_to_full_history_witness :
    ((.error () : Except Unit (List Topic)) = .error () ∨
      (.ok ([], fun _ => none) : Except Unit (List (List ℚ) × (String → Option (List ℚ))))
        = .error ()) ∧
    onPipelineContext (fun _ _ => 1) ⟨2/5, true, ["T"], ""⟩
      ⟨[⟨"m1", "user", "hello"⟩], "c1"⟩ (.error ()) (.ok ([], fun _ => none))
      = [⟨"m1", "user", "hello"⟩] :=
  ⟨Or.inl rfl,
    filter_error_degrades_to_full_history (fun _ _ => 1) ⟨2/5, true, ["T"], ""⟩
      ⟨[⟨"m1", "user", "hello"⟩], "c1"⟩ (.error ()) (.ok ([], fun _ => none))
      (Or.inl rfl)⟩

end SmartContext

namespace SmartContext

/-- Configuration read in `Plugin.__init__`:
`float(self.config.get("similarity_threshold", 0.4))` and
`bool(self.config.get("embedding_search", True))`; `active_topics`
starts empty and `current_chat_id` empty.  The source applies no range
check of any kind to the threshold: construction always succeeds. -/
def initPluginState (configThreshold : Option ℚ) (configEmbeddingSearch : Option Bool) :
    PluginState :=
  { similarity_threshold := configThreshold.getD (2/5)
    embedding_search := configEmbeddingSearch.getD true
    active_topics := []
    current_chat_id := "" }

/-- C7 counterexample: a configured threshold of 3/2, strictly outside
the interval from 0 to 1, is accepted at load time — `Plugin.__init__`
returns a normal state carrying exactly 3/2, so the value is neither
rejected with a ConfigError nor clamped. -/
theorem threshold_out_of_range_accepted_unchanged :
    (1 : ℚ) < 3/2 ∧
    (initPluginState (some (3/2)) none).similarity_threshold = 3/2 ∧
    (initPluginState (some (3/2)) none).embedding_search = true :=
  ⟨by norm_num, rfl, rfl⟩

/-- C7 amended: configuration loading performs no validation of the
similarity threshold — every configured value, in particular every
value outside the interval from 0 to 1, is accepted exactly as given
(neither rejected nor clamped). -/
theorem threshold_accepted_without_validation (q : ℚ) (o : Option Bool)
    (_h : q < 0 ∨ 1 < q) :
    (initPluginState (some q) o).similarity_threshold = q :=
  rfl

/-- C7 amended witness: the out-of-range value 3/2 is accepted as is. -/
theorem threshold_accepted_without_validation_witness :
    ((3 : ℚ)/2 < 0 ∨ (1 : ℚ) < 3/2) ∧
    (initPluginState (some (3/2)) (some true)).similarity_threshold = 3/2 :=
  ⟨Or.inr (by norm_num),
    threshold_accepted_without_validation (3/2) (some true) (Or.inr (by norm_num))⟩

/-- Model of `set_similarity_mode`: always sets `embedding_search` to
the given flag; when disabling, additionally clears `active_topics` and
emits `smart_context.filter_changed`.  Returns the new state and the
emitted event names. -/
def setSimilarityMode (st : PluginState) (enabled : Bool) : PluginState × List String :=
  if enabled then ({ st with embedding_search := true }, [])
  else ({ st with embedding_search := false, active_topics := [] },
    ["smart_context.filter_changed"])

/-- Model of `set_filter`: wholesale replacement of `active_topics` and
a `smart_context.filter_changed` event (the asynchronous highlight
refresh does not touch the filter state). -/
def setFilter (st : PluginState) (topics : List String) : PluginState × List String :=
  ({ st with active_topics := topics }, ["smart_context.filter_changed"])

/-- C10.  Frame property of re-enabling similarity mode:
`set_similarity_mode(true)` changes only the `similarity_search` flag —
threshold, chat id and in particular the active topic selection are
untouched — and after `set_similarity_mode(false)` has cleared the
selection, a subsequent `set_similarity_mode(true)` leaves it empty. -/
theorem setSimilarityMode_true_frame (st : PluginState) :
    (setSimilarityMode st true).1 = { st with embedding_search := true } ∧
    (setSimilarityMode st true).1.active_topics = st.active_topics ∧
    (setSimilarityMode st true).1.similarity_threshold = st.similarity_threshold ∧
    (setSimilarityMode st true).1.current_chat_id = st.current_chat_id ∧
    (setSimilarityMode (setSimilarityMode st false).1 true).1.active_topics = [] :=
  ⟨rfl, rfl, rfl, rfl, rfl⟩

end SmartContext

namespace SmartContext

/-- The extraction output after `json.loads` succeeded in
`_extract_topics`: `data.get("topics", [])` and
`data.get("sticky_message_ids", [])`.  `json.loads` validates no
schema, so the parsed topic dictionaries may carry any fields —
including a sticky flag of their own. -/
structure ParsedExtraction where
  topics : List Topic
  sticky_message_ids : List String
deriving DecidableEq, Repr

/-- Output handling of `_extract_topics`: the parsed topic list, with a
synthesized sticky entry appended when any sticky ids were flagged,
carrying exactly the flagged ids and a count equal to their number. -/
def extractTopicsResult (p : ParsedExtraction) : List Topic :=
  if p.sticky_message_ids = [] then p.topics
  else p.topics ++ [{ label := "Instructions & Preferences"
                      count := p.sticky_message_ids.length
                      sticky := true
                      message_ids := p.sticky_message_ids }]

/-- The persisted chat document as used by the extractor: the message
list and the topic list (`data["topics"]`). -/
structure ChatData where
  messages : List Message
  topics : List Topic
deriving DecidableEq, Repr

/-- The two ways `_extract_topics` can raise inside the try block of
`_run_topic_extraction`: the completion provider failing, or its output
not being valid JSON. -/
inductive ExtractionError
  | parseError
  | providerError
deriving DecidableEq, Repr

/-- Observable result of one `_run_topic_extraction` run: the persisted
chat document afterwards, the plugin current chat id, the emitted event
names, and the error log entries.  The function is total: the except
handler guarantees that no exception escapes the background task. -/
structure ExtractionRunResult where
  chat : ChatData
  currentChatId : String
  events : List String
  errorsLogged : List String
deriving DecidableEq, Repr

/-- Model of `_run_topic_extraction`.  `loadOk` models the status check
on `memory.load_chat`; a non-success load returns silently.  An empty
message list returns silently.  `outcome` is the awaited
`_extract_topics` call: on a raised parse or provider error the except
handler logs and nothing is saved; on success the topic list of the
loaded document is replaced wholesale by the extraction result, the
document is saved, `current_chat_id` is set and
`smart_context.topics_updated` is emitted. -/
def runTopicExtraction (chatId : String) (stored : ChatData) (currentChatId : String)
    (loadOk : Bool) (outcome : Except ExtractionError ParsedExtraction) :
    ExtractionRunResult :=
  if loadOk = false then ⟨stored, currentChatId, [], []⟩
  else if stored.messages = [] then ⟨stored, currentChatId, [], []⟩
  else
    match outcome with
    | .error _ => ⟨stored, currentChatId, [], ["topic_extraction_failed"]⟩
    | .ok p => ⟨{ stored with topics := extractTopicsResult p }, chatId,
        ["smart_context.topics_updated"], []⟩

/-- A sequence of N background extraction runs against the same chat
record, each reloading the stored document, running extraction with the
given outcome, and saving; only the persisted document is threaded. -/
def runExtractions (chatId : String) (stored : ChatData)
    (outcomes : List (Except ExtractionError ParsedExtraction)) : ChatData :=
  outcomes.foldl (fun c o => (runTopicExtraction chatId c "" true o).chat) stored

/-- Helper: an extraction run never touches the message list of the
persisted document. -/
theorem runTopicExtraction_messages (chatId : String) (stored : ChatData)
    (currentChatId : String) (loadOk : Bool)
    (outcome : Except ExtractionError ParsedExtraction) :
    (runTopicExtraction chatId stored currentChatId loadOk outcome).chat.messages
      = stored.messages := by
  unfold runTopicExtraction
  split_ifs
  · rfl
  · rfl
  · rcases outcome with e | p
    · rfl
    · rfl

/-- Helper: a sequence of extraction runs never touches the message
list of the persisted document. -/
theorem runExtractions_messages (chatId : String) (stored : ChatData)
    (outcomes : List (Except ExtractionError ParsedExtraction)) :
    (runExtractions chatId stored outcomes).messages = stored.messages := by
  induction outcomes generalizing stored with
  | nil => rfl
  | cons o rest ih =>
      show (runExtractions chatId (runTopicExtraction chatId stored "" true o).chat
        rest).messages = stored.messages
      rw [ih, runTopicExtraction_messages]

/-- C6.  Extraction failure atomicity: when the extraction call raises a
parse or provider error, the previously persisted chat document —
its Topic Set in particular — is left exactly unchanged (no save is
performed), the plugin state is untouched, no event is emitted, and the
failure is logged; the run returns normally. -/
theorem extraction_failure_leaves_topics_untouched (chatId : String)
    (stored : ChatData) (currentChatId : String) (err : ExtractionError)
    (h : stored.messages ≠ []) :
    (runTopicExtraction chatId stored currentChatId true (.error err)).chat = stored ∧
    (runTopicExtraction chatId stored currentChatId true (.error err)).currentChatId
      = currentChatId ∧
    (runTopicExtraction chatId stored currentChatId true (.error err)).events = [] ∧
    (runTopicExtraction chatId stored currentChatId true (.error err)).errorsLogged ≠ [] := by
  unfold runTopicExtraction
  rw [if_neg (by simp), if_neg h]
  exact ⟨rfl, rfl, rfl, by simp⟩

/-- C6 witness: a malformed extraction output for a concrete nonempty
chat leaves the stored document exactly as it was and logs. -/
theorem extraction_failure_leaves_topics_untouched_witness :
    (⟨[⟨"m1", "user", "hi"⟩], [⟨"Old Topic", 1, false, []⟩]⟩ : ChatData).messages ≠ [] ∧
    (runTopicExtraction "c1" ⟨[⟨"m1", "user", "hi"⟩], [⟨"Old Topic", 1, false, []⟩]⟩ ""
      true (.error .parseError)).chat
      = ⟨[⟨"m1", "user", "hi"⟩], [⟨"Old Topic", 1, false, []⟩]⟩ ∧
    (runTopicExtraction "c1" ⟨[⟨"m1", "user", "hi"⟩], [⟨"Old Topic", 1, false, []⟩]⟩ ""
      true (.error .parseError)).errorsLogged ≠ [] :=
  ⟨by decide,
    (extraction_failure_leaves_topics_untouched "c1"
      ⟨[⟨"m1", "user", "hi"⟩], [⟨"Old Topic", 1, false, []⟩]⟩ "" .parseError (by decide)).1,
    (extraction_failure_leaves_topics_untouched "c1"
      ⟨[⟨"m1", "user", "hi"⟩], [⟨"Old Topic", 1, false, []⟩]⟩ "" .parseError (by decide)).2.2.2⟩

/-- C9 counterexample: one successful extraction whose parsed output is
the JSON document with topics equal to a single dictionary labelled A
with count 1, a sticky flag set to true and message_ids z, and with
sticky_message_ids a — `json.loads` accepts it and nothing sanitizes
the sticky flag — leaves the persisted Topic Set with TWO sticky
entries, refuting the at-most-one-sticky invariant. -/
theorem sticky_uniqueness_counterexample :
    ¬ (((runExtractions "c1" ⟨[⟨"m1", "user", "hi"⟩], []⟩
        [.ok ⟨[⟨"A", 1, true, ["z"]⟩], ["a"]⟩]).topics.filter (·.sticky)).length ≤ 1) := by
  decide

/-- C9 amended: provided the parsed topic list of the final successful
extraction carries no sticky flag of its own (the format the extraction
prompt prescribes), after any number of prior extraction runs the
persisted Topic Set is replaced wholesale by that extraction result —
never merged — and contains at most one sticky entry; when sticky ids
were flagged, the sticky entry is exactly the synthesized one, with
message_ids the flagged ids and count their number. -/
theorem sticky_uniqueness_amended (chatId : String) (stored : ChatData)
    (outcomes : List (Except ExtractionError ParsedExtraction)) (p : ParsedExtraction)
    (hmsg : stored.messages ≠ [])
    (hwf : ∀ t ∈ p.topics, t.sticky = false) :
    (runExtractions chatId stored (outcomes ++ [.ok p])).topics = extractTopicsResult p ∧
    ((runExtractions chatId stored (outcomes ++ [.ok p])).topics.filter
      (·.sticky)).length ≤ 1 ∧
    (p.sticky_message_ids ≠ [] →
      (runExtractions chatId stored (outcomes ++ [.ok p])).topics.filter (·.sticky)
        = [⟨"Instructions & Preferences", p.sticky_message_ids.length, true,
            p.sticky_message_ids⟩]) := by
  have hmsg2 : (runExtractions chatId stored outcomes).messages ≠ [] := by
    rw [runExtractions_messages]; exact hmsg
  have hlast : runExtractions chatId stored (outcomes ++ [.ok p])
      = (runTopicExtraction chatId (runExtractions chatId stored outcomes) "" true
          (.ok p)).chat := by
    unfold runExtractions
    rw [List.foldl_append]
    rfl
  have htop : (runExtractions chatId stored (outcomes ++ [.ok p])).topics
      = extractTopicsResult p := by
    rw [hlast]
    unfold runTopicExtraction
    rw [if_neg (by simp), if_neg hmsg2]
  have hfilter_topics : p.topics.filter (·.sticky) = [] :=
    List.filter_eq_nil_iff.mpr (fun t ht => by simp [hwf t ht])
  refine ⟨htop, ?_, ?_⟩
  · rw [htop]
    unfold extractTopicsResult
    split_ifs with hids
    · simp [hfilter_topics]
    · simp [List.filter_append, hfilter_topics]
  · intro hids
    rw [htop]
    unfold extractTopicsResult
    rw [if_neg hids]
    simp [List.filter_append, hfilter_topics]

/-- C9 amended witness: two extractions in a row, the final one with a
well-formed parsed output flagging one sticky id, leave exactly the
synthesized sticky entry. -/
theorem sticky_uniqueness_amended_witness :
    (⟨[⟨"m1", "user", "hi"⟩], []⟩ : ChatData).messages ≠ [] ∧
    (∀ t ∈ ([⟨"Python Async", 2, false, []⟩] : List Topic), t.sticky = false) ∧
    (runExtractions "c1" ⟨[⟨"m1", "user", "hi"⟩], []⟩
      [.ok ⟨[⟨"Old", 1, false, []⟩], []⟩, .ok ⟨[⟨"Python Async", 2, false, []⟩], ["a1"]⟩]
      ).topics.filter (·.sticky)
      = [⟨"Instructions & Preferences", 1, true, ["a1"]⟩] :=
  ⟨by decide, by decide,
    (sticky_uniqueness_amended "c1" ⟨[⟨"m1", "user", "hi"⟩], []⟩
      [.ok ⟨[⟨"Old", 1, false, []⟩], []⟩] ⟨[⟨"Python Async", 2, false, []⟩], ["a1"]⟩
      (by decide) (by decide)).2.2 (by decide)⟩

end SmartContext

namespace SmartContext

namespace MD5

/-- Left rotation of a 32-bit word, `(x << n | x >> (32 - n))` on
32-bit values. -/
def rotl (x n : Nat) : Nat := ((x <<< n) ||| (x >>> (32 - n))) % 4294967296

/-- Bitwise complement of a 32-bit word. -/
def notW (x : Nat) : Nat := 4294967295 ^^^ x

/-- The 64 md5 round constants, the integer parts of the absolute sines
of 1 to 64 scaled by 2 to the 32. -/
def K : List Nat := [
  3614090360, 3905402710, 606105819, 3250441966, 4118548399, 1200080426, 2821735955, 4249261313,
  1770035416, 2336552879, 4294925233, 2304563134, 1804603682, 4254626195, 2792965006, 1236535329,
  4129170786, 3225465664, 643717713, 3921069994, 3593408605, 38016083, 3634488961, 3889429448,
  568446438, 3275163606, 4107603335, 1163531501, 2850285829, 4243563512, 1735328473, 2368359562,
  4294588738, 2272392833, 1839030562, 4259657740, 2763975236, 1272893353, 4139469664, 3200236656,
  681279174, 3936430074, 3572445317, 76029189, 3654602809, 3873151461, 530742520, 3299628645,
  4096336452, 1126891415, 2878612391, 4237533241, 1700485571, 2399980690, 4293915773, 2240044497,
  1873313359, 4264355552, 2734768916, 1309151649, 4149444226, 3174756917, 718787259, 3951481745]

/-- The 64 md5 per-round left-rotation amounts. -/
def S : List Nat := [
  7, 12, 17, 22, 7, 12, 17, 22, 7, 12, 17, 22, 7, 12, 17, 22,
  5, 9, 14, 20, 5, 9, 14, 20, 5, 9, 14, 20, 5, 9, 14, 20,
  4, 11, 16, 23, 4, 11, 16, 23, 4, 11, 16, 23, 4, 11, 16, 23,
  6, 10, 15, 21, 6, 10, 15, 21, 6, 10, 15, 21, 6, 10, 15, 21]

/-- A 32-bit word from four bytes, little endian. -/
def leWord (b0 b1 b2 b3 : Nat) : Nat := b0 + 256 * b1 + 65536 * b2 + 16777216 * b3

/-- The sixteen 32-bit little-endian words of a 64-byte block. -/
def toWords : List Nat → List Nat
  | b0 :: b1 :: b2 :: b3 :: rest => leWord b0 b1 b2 b3 :: toWords rest
  | _ => []

/-- One of the 64 md5 operations on the running state. -/
def step (ws : List Nat) (st : Nat × Nat × Nat × Nat) (i : Nat) : Nat × Nat × Nat × Nat :=
  let (a, b, c, d) := st
  let f :=
    if i < 16 then (b &&& c) ||| (notW b &&& d)
    else if i < 32 then (d &&& b) ||| (notW d &&& c)
    else if i < 48 then b ^^^ c ^^^ d
    else c ^^^ (b ||| notW d)
  let g :=
    if i < 16 then i
    else if i < 32 then (5 * i + 1) % 16
    else if i < 48 then (3 * i + 5) % 16
    else (7 * i) % 16
  let fv := (f + a + K.getD i 0 + ws.getD g 0) % 4294967296
  (d, (b + rotl fv (S.getD i 0)) % 4294967296, b, c)

/-- One 64-byte block absorbed into the state. -/
def processChunk (st : Nat × Nat × Nat × Nat) (chunk : List Nat) : Nat × Nat × Nat × Nat :=
  let ws := toWords chunk
  let r := (List.range 64).foldl (step ws) st
  ((st.1 + r.1) % 4294967296, (st.2.1 + r.2.1) % 4294967296,
    (st.2.2.1 + r.2.2.1) % 4294967296, (st.2.2.2 + r.2.2.2) % 4294967296)

/-- md5 padding: a 1 bit, zeros to 56 mod 64 bytes, and the 64-bit
little-endian bit length. -/
def pad (msg : List Nat) : List Nat :=
  let len := msg.length
  let zeros := (119 - (len % 64)) % 64
  let bitLen := (8 * len) % 18446744073709551616
  msg ++ [128] ++ List.replicate zeros 0 ++
    ((List.range 8).map (fun i => (bitLen >>> (8 * i)) % 256))

/-- The padded message cut into 64-byte blocks; the fuel is the exact
block count, the padded length being a multiple of 64. -/
def chunksAux : Nat → List Nat → List (List Nat)
  | 0, _ => []
  | n + 1, l => l.take 64 :: chunksAux n (l.drop 64)

/-- The 16 digest bytes of a byte message. -/
def digestBytes (msg : List Nat) : List Nat :=
  let padded := pad msg
  let r := (chunksAux (padded.length / 64) padded).foldl processChunk
    (1732584193, 4023233417, 2562383102, 271733878)
  ([r.1, r.2.1, r.2.2.1, r.2.2.2]).flatMap
    (fun w => [w % 256, (w >>> 8) % 256, (w >>> 16) % 256, (w >>> 24) % 256])

/-- A lowercase hex character for a value below 16. -/
def hexChar (n : Nat) : Char := if n < 10 then Char.ofNat (48 + n) else Char.ofNat (87 + n)

/-- The 32-character lowercase hex digest, `hashlib.md5(bytes).hexdigest()`. -/
def hexdigest (msg : List Nat) : String :=
  String.mk ((digestBytes msg).flatMap (fun b => [hexChar (b / 16), hexChar (b % 16)]))

end MD5

/-- Reference check of the md5 model: the digest of the empty message. -/
theorem md5_empty_reference : MD5.hexdigest [] = "d41d8cd98f00b204e9800998ecf8427e" := by
  decide

/-- Reference check of the md5 model: the digest of the three bytes of
abc, and of a 95-byte message spanning two padded blocks. -/
theorem md5_abc_reference :
    MD5.hexdigest [97, 98, 99] = "900150983cd24fb0d6963f7d28e17f72" ∧
    MD5.hexdigest (List.replicate 95 97) = "464c461455c5a927079a13609c20b637" := by
  constructor
  · decide
  · set_option maxRecDepth 4096 in decide

/-- UTF-8 encoding of one unicode scalar value, as Python str.encode
produces per character. -/
def utf8Bytes (c : Nat) : List Nat :=
  if c < 128 then [c]
  else if c < 2048 then [192 + c / 64, 128 + c % 64]
  else if c < 65536 then [224 + c / 4096, 128 + (c / 64) % 64, 128 + c % 64]
  else [240 + c / 262144, 128 + (c / 4096) % 64, 128 + (c / 64) % 64, 128 + c % 64]

/-- The UTF-8 byte sequence of a string, `content.encode()`. -/
def contentBytes (s : String) : List Nat := s.data.flatMap (fun ch => utf8Bytes ch.toNat)

/-- The content fingerprint used by EmbeddingCache, the first 8 hex
characters of the md5 of the encoded content:
`hashlib.md5(content.encode()).hexdigest()[:8]`. -/
def fingerprint (content : String) : String :=
  (MD5.hexdigest (contentBytes content)).take 8

/-- The embedding cache, its persisted JSON object modelled as the
association list of entries; a later `set` shadows an older entry with
the same key exactly as a dict assignment does. -/
structure EmbeddingCache where
  entries : List (String × List ℚ)
deriving DecidableEq, Repr

/-- The cache key of `EmbeddingCache._key`: the message id, a colon and
the content fingerprint. -/
def EmbeddingCache.key (messageId content : String) : String :=
  messageId ++ ":" ++ fingerprint content

/-- `EmbeddingCache.get`: the entry under the key of the given id and
content, absent when no such key is stored. -/
def EmbeddingCache.get (c : EmbeddingCache) (messageId content : String) :
    Option (List ℚ) :=
  c.entries.lookup (EmbeddingCache.key messageId content)

/-- `EmbeddingCache.set`: store the vector under the key of the given
id and content (write-through persistence carries no further observable
state). -/
def EmbeddingCache.set (c : EmbeddingCache) (messageId content : String)
    (embedding : List ℚ) : EmbeddingCache :=
  ⟨(EmbeddingCache.key messageId content, embedding) :: c.entries⟩

/-- A cold cache, as after construction over a missing or corrupt
backing file. -/
def EmbeddingCache.empty : EmbeddingCache := ⟨[]⟩

end SmartContext

namespace SmartContext

set_option maxRecDepth 16384 in
/-- C5 counterexample: the fingerprint keeps only 8 hex characters (32
bits) of the md5 digest, so distinct contents can collide — the
contents m31821 and m47923 differ yet share the fingerprint b87bff35,
and a get with the modified content immediately after a put with the
original content returns the stored vector instead of absent. -/
theorem cache_modified_content_stale_hit :
    ("m31821" : String) ≠ "m47923" ∧
    fingerprint "m31821" = "b87bff35" ∧
    fingerprint "m47923" = "b87bff35" ∧
    (EmbeddingCache.empty.set "msg1" "m31821" [1]).get "msg1" "m47923" = some [1] := by
  refine ⟨by decide, by decide, by decide, ?_⟩
  decide

/-- C5 amended: a get with the same id and content immediately after a
put returns the stored vector; and on a previously empty cache, a get
after a put with the original content returns absent for every modified
content whose fingerprint differs from the fingerprint of the original
(rather than for every modified content outright). -/
theorem cache_roundtrip_amended :
    (∀ (c : EmbeddingCache) (messageId content : String) (vec : List ℚ),
      (c.set messageId content vec).get messageId content = some vec) ∧
    (∀ (messageId content modified : String) (vec : List ℚ),
      fingerprint modified ≠ fingerprint content →
      (EmbeddingCache.empty.set messageId content vec).get messageId modified = none) := by
  constructor
  · intro c messageId content vec
    simp [EmbeddingCache.get, EmbeddingCache.set, List.lookup]
  · intro messageId content modified vec h
    have hkey : EmbeddingCache.key messageId modified
        ≠ EmbeddingCache.key messageId content := by
      intro he
      apply h
      have hd := congrArg String.data he
      simp only [EmbeddingCache.key, String.data_append] at hd
      exact String.ext (List.append_cancel_left hd)
    simp [EmbeddingCache.get, EmbeddingCache.set, EmbeddingCache.empty, List.lookup,
      beq_eq_false_iff_ne.mpr hkey]

set_option maxRecDepth 16384 in
/-- C5 amended witness: concrete contents with distinct fingerprints
observe the round trip and the miss. -/
theorem cache_roundtrip_amended_witness :
    (EmbeddingCache.empty.set "msg1" "hello" [1, 3]).get "msg1" "hello" = some [1, 3] ∧
    fingerprint "hola" ≠ fingerprint "hello" ∧
    (EmbeddingCache.empty.set "msg1" "hello" [1, 3]).get "msg1" "hola" = none :=
  ⟨cache_roundtrip_amended.1 EmbeddingCache.empty "msg1" "hello" [1, 3],
    by decide,
    cache_roundtrip_amended.2 "msg1" "hello" "hola" [1, 3] (by decide)⟩

end SmartContext
